import Mathlib

/-!
Shallow embedding of the vspd webapi helper validators
(`src/webapi/helpers.go`) and proofs of their specification properties.

Go maps are embedded as association lists (iteration order is the list
order; the Go map iteration order is unspecified, so theorems about
failure reporting are phrased relative to the position of the offending
entry in the iteration sequence).  Go errors are embedded as an inductive
`GoError`: `fmt.Errorf` without `%w` and `errors.New` produce `.msg`,
`fmt.Errorf("...: %w", err)` produces `.wrap`.  Collaborator capabilities
(database lookup, dcrd node query) are embedded as explicit arguments,
and the number of times a capability is invoked is returned alongside the
result so that "no query performed" is provable.
-/

namespace Vspd

/-- Go error values as observed by callers of the helpers.  `msg` is a
leaf error (`errors.New` / `fmt.Errorf` without `%w`), `wrap` is a
wrapping error (`fmt.Errorf` with a `%w` verb: context string plus the
wrapped inner error), and the two `hex` constructors are the errors of
Go's `encoding/hex` package (`InvalidByteError` and `ErrLength`). -/
inductive GoError where
  | msg (s : String)
  | wrap (context : String) (inner : GoError)
  | hexInvalidByte (c : Char)
  | hexErrLength
  deriving DecidableEq

/-- Go's `errors.Unwrap`: recovers the error wrapped by `%w`. -/
def errUnwrap : GoError → Option GoError
  | .wrap _ inner => some inner
  | _ => none

/-- Surrounds a string with double quotes, as Go's `%q` format verb does
for strings without special characters. -/
def quoteStr (s : String) : String := "\"" ++ s ++ "\""

/-- Value of a hexadecimal digit character, `none` for non-hex
characters (Go `encoding/hex.fromHexChar`). -/
def hexDigitVal (c : Char) : Option Nat :=
  if '0' ≤ c ∧ c ≤ '9' then some (c.toNat - '0'.toNat)
  else if 'a' ≤ c ∧ c ≤ 'f' then some (c.toNat - 'a'.toNat + 10)
  else if 'A' ≤ c ∧ c ≤ 'F' then some (c.toNat - 'A'.toNat + 10)
  else none

/-- Go `encoding/hex.Decode` on a character sequence: decodes pairs of
hex digits left to right into bytes; an invalid character yields
`InvalidByteError` (the leftmost offender), and a trailing unpaired
valid digit yields `ErrLength`. -/
def hexDecodeList : List Char → Except GoError (List Nat)
  | [] => .ok []
  | [c] =>
    match hexDigitVal c with
    | some _ => .error .hexErrLength
    | none => .error (.hexInvalidByte c)
  | a :: b :: rest =>
    match hexDigitVal a with
    | none => .error (.hexInvalidByte a)
    | some x =>
      match hexDigitVal b with
      | none => .error (.hexInvalidByte b)
      | some y =>
        match hexDecodeList rest with
        | .error e => .error e
        | .ok bs => .ok ((x * 16 + y) :: bs)

/-- Go `encoding/hex.DecodeString`. -/
def hexDecodeString (s : String) : Except GoError (List Nat) :=
  hexDecodeList s.data

/-- Holds (`true`) iff every character of the string is a hexadecimal digit. -/
def allHexDigits (s : String) : Bool :=
  s.data.all fun c => (hexDigitVal c).isSome

/-- Constant `secp256k1.PubKeyBytesLenCompressed`: length in bytes of a
compressed public key. -/
def PubKeyBytesLenCompressed : Nat := 33

/-- Constant `chainhash.MaxHashStringSize`: length in characters of a hash
string (2 characters per byte of the 32-byte hash). -/
def MaxHashStringSize : Nat := 64

/-- Error value `chainhash.ErrHashStrSize`. -/
def errHashStrSize : GoError :=
  .msg ("max hash string length is " ++ toString MaxHashStringSize ++ " bytes")

/-- Embeds `chainhash.NewHashFromStr`: rejects strings longer than
`MaxHashStringSize`, left-pads odd-length strings with a single `0`,
then hex-decodes.  The decoded hash value itself is irrelevant to the
helpers, so the embedding returns `Unit` on success. -/
def newHashFromStr (hash : String) : Except GoError Unit :=
  if hash.length > MaxHashStringSize then .error errHashStrSize
  else
    match hexDecodeList (if hash.length % 2 = 0 then hash.data else '0' :: hash.data) with
    | .error e => .error e
    | .ok _ => .ok ()

/-- A single voting choice of a consensus agenda (`chaincfg.Choice`);
only the identifier is relevant to the validators. -/
structure Choice where
  Id : String
  deriving DecidableEq

/-- The vote descriptor of a consensus deployment (`chaincfg.Vote`):
agenda identifier plus the list of permissible choices. -/
structure Vote where
  Id : String
  Choices : List Choice
  deriving DecidableEq

/-- A consensus rule-change deployment (`chaincfg.ConsensusDeployment`);
only its `Vote` field is relevant to the validators. -/
structure ConsensusDeployment where
  Vote : Vote
  deriving DecidableEq

/-- Network parameters (`chaincfg.Params`), restricted to the fields the
helpers read.  `Deployments` embeds the Go map from vote version to
deployment list as an association list.  `TicketMaturity` is a `uint16`
in Go and `TicketExpiry` a `uint32`; they are carried as `Nat` with
those bounds imposed as hypotheses where they matter. -/
structure Params where
  Deployments : List (Nat × List ConsensusDeployment)
  TicketMaturity : Nat
  TicketExpiry : Nat
  deriving DecidableEq

/-- Go map indexing `params.Deployments[voteVersion]`: a missing key
yields the nil slice. -/
def deploymentsAt (params : Params) (voteVersion : Nat) : List ConsensusDeployment :=
  match params.Deployments.lookup voteVersion with
  | some deps => deps
  | none => []

/-- Returns the first error produced by `f` while iterating the list,
or `none` when every element passes: the shape shared by all three
map-iterating validators (each loop body either returns an error or
continues with the next entry). -/
def firstError (f : α → Option GoError) : List α → Option GoError
  | [] => none
  | x :: xs =>
    match f x with
    | some e => some e
    | none => firstError f xs

/-- Error returned by `validConsensusVoteChoices` when no agenda of the
requested vote version matches the submitted agenda identifier. -/
def agendaNotFoundErr (agenda : String) (voteVersion : Nat) : GoError :=
  .msg ("agenda " ++ quoteStr agenda ++ " not found for vote version " ++ toString voteVersion)

/-- Error returned by `validConsensusVoteChoices` when the agenda is
found but the submitted choice is not among its choices. -/
def choiceNotFoundErr (choice agenda : String) : GoError :=
  .msg ("choice " ++ quoteStr choice ++ " not found for agenda " ++ quoteStr agenda)

/-- The body of the `agendaLoop` in `validConsensusVoteChoices` for one
submitted (agenda, choice) pair: scan the deployments of the requested
vote version for the agenda; on a match, scan its choices for the
submitted choice; report the first applicable error. -/
def findAgendaCheck (agenda choice : String) (voteVersion : Nat) :
    List ConsensusDeployment → Option GoError
  | [] => some (agendaNotFoundErr agenda voteVersion)
  | v :: rest =>
    if v.Vote.Id = agenda then
      if v.Vote.Choices.any (fun c => c.Id == choice) then none
      else some (choiceNotFoundErr choice agenda)
    else findAgendaCheck agenda choice voteVersion rest

/-- Embeds `validConsensusVoteChoices`: returns an error if the provided vote
choices are not valid for the consensus agendas of the given vote
version.  The submitted map is embedded as an association list iterated
in order. -/
def validConsensusVoteChoices (params : Params) (voteVersion : Nat)
    (voteChoices : List (String × String)) : Option GoError :=
  firstError (fun p => findAgendaCheck p.1 p.2 voteVersion (deploymentsAt params voteVersion))
    voteChoices

/-- Embeds `validPolicyOption`: accepts exactly the policy values understood by
dcrwallet RPCs. -/
def validPolicyOption (policy : String) : Option GoError :=
  if policy = "yes" ∨ policy = "no" ∨ policy = "abstain" ∨ policy = "invalid" ∨ policy = ""
  then none
  else some (.msg (quoteStr policy ++ " is not a valid policy option"))

/-- The five policy values accepted by `validPolicyOption`. -/
def policyOptions : List String := ["yes", "no", "abstain", "invalid", ""]

/-- Loop body of `validTreasuryPolicy` for one (key, choice) entry. -/
def checkTreasuryEntry (p : String × String) : Option GoError :=
  match hexDecodeString p.1 with
  | .error e => some (.wrap ("error decoding treasury key " ++ quoteStr p.1) e)
  | .ok pikey =>
    if pikey.length ≠ PubKeyBytesLenCompressed then
      some (.msg ("treasury key " ++ quoteStr p.1 ++ " is not " ++
        toString PubKeyBytesLenCompressed ++ " bytes"))
    else validPolicyOption p.2

/-- Embeds `validTreasuryPolicy`: each key must hex-decode to a 33-byte
compressed public key and each value must be a valid policy option. -/
def validTreasuryPolicy (policy : List (String × String)) : Option GoError :=
  firstError checkTreasuryEntry policy

/-- Loop body of `validTSpendPolicy` for one (hash, choice) entry. -/
def checkTSpendEntry (p : String × String) : Option GoError :=
  if p.1.length ≠ MaxHashStringSize then
    some (.msg ("wrong tspend hash length, expected " ++ toString MaxHashStringSize ++
      " got " ++ toString p.1.length))
  else
    match newHashFromStr p.1 with
    | .error e => some (.wrap ("error decoding tspend hash " ++ quoteStr p.1) e)
    | .ok _ => validPolicyOption p.2

/-- Embeds `validTSpendPolicy`: each key must be a 64-character string parsing
as a chain hash and each value a valid policy option. -/
def validTSpendPolicy (policy : List (String × String)) : Option GoError :=
  firstError checkTSpendEntry policy

/-- The alternate signing address record held by the database
(`database.AltSignAddrData`); only the address is relevant here. -/
structure AltSignAddrData where
  AltSignAddr : String
  deriving DecidableEq

/-- Embeds `validateSignature`.  `verifyMessage a` embeds
`dcrutil.VerifyMessage(a, signature, message, params)` with the
signature, message and network parameters held fixed; `dbLookup` embeds
the one `db.AltSignAddrData(hash)` response for the fixed ticket hash
(`.ok none` when no alternate record is registered).  The second
component of the result counts how many times the database lookup
capability was invoked. -/
def validateSignature (commitmentAddress : String)
    (verifyMessage : String → Option GoError)
    (dbLookup : Except GoError (Option AltSignAddrData)) : Option GoError × Nat :=
  match verifyMessage commitmentAddress with
  | none => (none, 0)
  | some _ =>
    match dbLookup with
    | .error e => (some (.wrap "db.AltSignAddrData failed" e), 1)
    | .ok altSigData =>
      match altSigData with
      | none => (some (.msg "bad signature"), 1)
      | some d =>
        match verifyMessage d.AltSignAddr with
        | some _ => (some (.msg "bad signature"), 1)
        | none => (none, 1)

/-- A transaction output (`wire.TxOut`), fields irrelevant to the
validators beyond their presence. -/
structure TxOut where
  Value : Int
  PkScript : List Nat
  deriving DecidableEq

/-- A wire-format transaction (`wire.MsgTx`), restricted to the output
list which is all `isValidTicket` inspects directly. -/
structure MsgTx where
  TxOut : List TxOut
  deriving DecidableEq

/-- Embeds `isValidTicket`.  `isSStx` embeds `stake.IsSStx`, the consensus
stake-submission classifier from the dcrd library, as an opaque
predicate on transactions. -/
def isValidTicket (isSStx : MsgTx → Bool) (tx : MsgTx) : Option GoError :=
  if ¬ isSStx tx then some (.msg "invalid transaction - not sstx")
  else if tx.TxOut.length ≠ 3 then
    some (.msg ("invalid transaction - expected 3 outputs, got " ++ toString tx.TxOut.length))
  else none

/-- Embeds `validateTicketHash`: the hash string must be exactly
`MaxHashStringSize` characters and parse via `chainhash.NewHashFromStr`. -/
def validateTicketHash (hash : String) : Option GoError :=
  if hash.length ≠ MaxHashStringSize then
    some (.msg ("incorrect hash length: got " ++ toString hash.length ++
      ", expected " ++ toString MaxHashStringSize))
  else
    match newHashFromStr hash with
    | .error e => some (.wrap "invalid hash" e)
    | .ok _ => none

/-- Embeds `canTicketVote`.  `confirmations` is the `int64` confirmation count
of the raw transaction; `ticketMaturity` (a `uint16` in Go) and
`ticketExpiry` (a `uint32`) come from the network parameters.  The Go
expression `int64(uint32(netParams.TicketMaturity)+netParams.TicketExpiry)+1`
adds maturity and expiry with 32-bit wraparound, hence the explicit
`% 4294967296`.  `existsLiveTicket` embeds the one
`dcrdClient.ExistsLiveTicket(txid)` response; the second component of
the result counts how many times that node-query capability was
invoked. -/
def canTicketVote (confirmations : Int) (ticketMaturity ticketExpiry : Nat)
    (existsLiveTicket : Except GoError Bool) : (Bool × Option GoError) × Nat :=
  if confirmations > (((ticketMaturity + ticketExpiry) % 4294967296 : Nat) : Int) + 1 then
    ((false, none), 0)
  else if confirmations ≤ (ticketMaturity : Int) then
    ((true, none), 0)
  else
    match existsLiveTicket with
    | .error e => ((false, some (.wrap "dcrd.ExistsLiveTicket error" e)), 1)
    | .ok live => ((live, none), 1)

/-- A deployment's agenda offers the given choice identifier. -/
def agendaHasChoice (v : ConsensusDeployment) (choice : String) : Prop :=
  ∃ ch ∈ v.Vote.Choices, ch.Id = choice

/-- A submitted (agenda, choice) pair appears in the agenda/choice
tables of the given deployment list. -/
def pairInTables (deps : List ConsensusDeployment) (p : String × String) : Prop :=
  ∃ v ∈ deps, v.Vote.Id = p.1 ∧ agendaHasChoice v p.2

/-- A treasury-policy entry is well formed: the key hex-decodes to
exactly 33 bytes and the value is an accepted policy option. -/
def treasuryEntryGood (p : String × String) : Prop :=
  (∃ bs, hexDecodeString p.1 = .ok bs ∧ bs.length = PubKeyBytesLenCompressed) ∧
    p.2 ∈ policyOptions

theorem firstError_eq_none_iff (f : α → Option GoError) (l : List α) :
    firstError f l = none ↔ ∀ x ∈ l, f x = none := by
  induction l with
  | nil => simp [firstError]
  | cons x xs ih =>
    cases hfx : f x with
    | some e => simp [firstError, hfx]
    | none => simp [firstError, hfx, ih]

theorem firstError_append_cons (f : α → Option GoError) (pre post : List α) (x : α)
    (e : GoError) (hpre : ∀ y ∈ pre, f y = none) (hx : f x = some e) :
    firstError f (pre ++ x :: post) = some e := by
  induction pre with
  | nil => simp [firstError, hx]
  | cons a as ih =>
    have ha : f a = none := hpre a (by simp)
    simpa [firstError, ha] using ih fun y hy => hpre y (by simp [hy])

/-- Claim C10: each of `validConsensusVoteChoices`, `validTreasuryPolicy`
and `validTSpendPolicy` returns success (no error) on an empty mapping,
for every parameter set and vote version. -/
theorem empty_maps_valid :
    ∀ (params : Params) (voteVersion : Nat),
      validConsensusVoteChoices params voteVersion [] = none ∧
      validTreasuryPolicy [] = none ∧
      validTSpendPolicy [] = none :=
  fun _ _ => ⟨rfl, rfl, rfl⟩

/-- Claim C6: `isValidTicket` succeeds exactly when the transaction
classifies as a stake submission and has exactly three outputs; a stake
submission with any other output count fails with an error naming the
actual count; a non-stake-submission fails with the non-ticket
classification error (whatever its output count). -/
theorem isValidTicket_spec :
    ∀ (isSStx : MsgTx → Bool) (tx : MsgTx),
      (isValidTicket isSStx tx = none ↔ isSStx tx = true ∧ tx.TxOut.length = 3) ∧
      (isSStx tx = true → tx.TxOut.length ≠ 3 →
        isValidTicket isSStx tx =
          some (.msg ("invalid transaction - expected 3 outputs, got " ++
            toString tx.TxOut.length))) ∧
      (isSStx tx = false →
        isValidTicket isSStx tx = some (.msg "invalid transaction - not sstx")) := by
  intro isSStx tx
  refine ⟨⟨fun h => ?_, fun h => ?_⟩, fun h1 h2 => ?_, fun h1 => ?_⟩
  · by_cases h1 : isSStx tx
    · by_cases h2 : tx.TxOut.length = 3
      · exact ⟨h1, h2⟩
      · simp [isValidTicket, h1, h2] at h
    · simp [isValidTicket, h1] at h
  · simp [isValidTicket, h.1, h.2]
  · simp [isValidTicket, h1, h2]
  · simp [isValidTicket, h1]

theorem isValidTicket_spec_witness :
    isValidTicket (fun tx => !tx.TxOut.isEmpty) ⟨[⟨0, []⟩, ⟨0, []⟩]⟩ =
      some (.msg ("invalid transaction - expected 3 outputs, got " ++ toString (2 : Nat))) ∧
    isValidTicket (fun tx => !tx.TxOut.isEmpty) ⟨[]⟩ =
      some (.msg "invalid transaction - not sstx") :=
  ⟨(isValidTicket_spec (fun tx => !tx.TxOut.isEmpty) ⟨[⟨0, []⟩, ⟨0, []⟩]⟩).2.1
      (by decide) (by decide),
   (isValidTicket_spec (fun tx => !tx.TxOut.isEmpty) ⟨[]⟩).2.2 (by decide)⟩

/-- Claim C7: when primary verification against the commitment address
succeeds, `validateSignature` succeeds without ever invoking the
alternate-address lookup capability; the lookup happens (exactly once)
only when the primary check fails. -/
theorem validateSignature_primary_success_no_lookup :
    ∀ (commitmentAddress : String) (verifyMessage : String → Option GoError)
      (dbLookup : Except GoError (Option AltSignAddrData)),
      (verifyMessage commitmentAddress = none →
        validateSignature commitmentAddress verifyMessage dbLookup = (none, 0)) ∧
      (verifyMessage commitmentAddress ≠ none →
        (validateSignature commitmentAddress verifyMessage dbLookup).2 = 1) := by
  intro addr v db
  constructor
  · intro h
    simp [validateSignature, h]
  · intro h
    cases hv : v addr with
    | none => exact absurd hv h
    | some e =>
      cases db with
      | error e2 => simp [validateSignature, hv]
      | ok alt =>
        cases alt with
        | none => simp [validateSignature, hv]
        | some d => cases hda : v d.AltSignAddr <;> simp [validateSignature, hv, hda]

theorem validateSignature_primary_success_no_lookup_witness :
    validateSignature "good" (fun a => if a = "good" then none else some (.msg "sig err"))
      (.ok none) = (none, 0) ∧
    (validateSignature "other" (fun a => if a = "good" then none else some (.msg "sig err"))
      (.ok none)).2 = 1 :=
  ⟨(validateSignature_primary_success_no_lookup "good"
      (fun a => if a = "good" then none else some (.msg "sig err")) (.ok none)).1 (by decide),
   (validateSignature_primary_success_no_lookup "other"
      (fun a => if a = "good" then none else some (.msg "sig err")) (.ok none)).2 (by decide)⟩

/-- Claim C2: when primary verification fails and the alternate-address
lookup succeeds, the run with no alternate record and the run with an
alternate record whose verification also fails produce identical
observable outputs — the same opaque "bad signature" error and the same
lookup count. -/
theorem validateSignature_opaque_auth_failure :
    ∀ (commitmentAddress : String) (verifyMessage : String → Option GoError)
      (d : AltSignAddrData),
      verifyMessage commitmentAddress ≠ none →
      verifyMessage d.AltSignAddr ≠ none →
      validateSignature commitmentAddress verifyMessage (.ok (some d)) =
        validateSignature commitmentAddress verifyMessage (.ok none) ∧
      validateSignature commitmentAddress verifyMessage (.ok (some d)) =
        (some (.msg "bad signature"), 1) := by
  intro addr v d h1 h2
  cases hv : v addr with
  | none => exact absurd hv h1
  | some e =>
    cases hd : v d.AltSignAddr with
    | none => exact absurd hd h2
    | some e2 => exact ⟨by simp [validateSignature, hv, hd], by simp [validateSignature, hv, hd]⟩

theorem validateSignature_opaque_auth_failure_witness :
    validateSignature "addrA" (fun a => if a = "good" then none else some (.msg "sig err"))
      (.ok (some ⟨"addrB"⟩)) =
      validateSignature "addrA" (fun a => if a = "good" then none else some (.msg "sig err"))
        (.ok none) ∧
    validateSignature "addrA" (fun a => if a = "good" then none else some (.msg "sig err"))
      (.ok (some ⟨"addrB"⟩)) = (some (.msg "bad signature"), 1) :=
  validateSignature_opaque_auth_failure "addrA"
    (fun a => if a = "good" then none else some (.msg "sig err")) ⟨"addrB"⟩
    (by decide) (by decide)

/-- Claim C3: when primary verification fails and the alternate-address
lookup itself errors, `validateSignature` returns an infrastructure
failure that wraps the lookup error; this outcome is never the generic
"bad signature" authentication failure, for any lookup error. -/
theorem validateSignature_lookup_error_distinct :
    ∀ (commitmentAddress : String) (verifyMessage : String → Option GoError) (e : GoError),
      verifyMessage commitmentAddress ≠ none →
      validateSignature commitmentAddress verifyMessage (.error e) =
        (some (.wrap "db.AltSignAddrData failed" e), 1) ∧
      errUnwrap (.wrap "db.AltSignAddrData failed" e) = some e ∧
      ∀ e2 : GoError, GoError.wrap "db.AltSignAddrData failed" e2 ≠ .msg "bad signature" := by
  intro addr v e h1
  refine ⟨?_, rfl, fun e2 h => by cases h⟩
  cases hv : v addr with
  | none => exact absurd hv h1
  | some e0 => simp [validateSignature, hv]

theorem validateSignature_lookup_error_distinct_witness :
    validateSignature "addrA" (fun a => if a = "good" then none else some (.msg "sig err"))
      (.error (.msg "db down")) =
      (some (.wrap "db.AltSignAddrData failed" (.msg "db down")), 1) ∧
    errUnwrap (.wrap "db.AltSignAddrData failed" (.msg "db down")) = some (.msg "db down") ∧
    ∀ e2 : GoError, GoError.wrap "db.AltSignAddrData failed" e2 ≠ .msg "bad signature" :=
  validateSignature_lookup_error_distinct "addrA"
    (fun a => if a = "good" then none else some (.msg "sig err")) (.msg "db down") (by decide)

/-- Claim C1 (counterexample to the claim as stated): with ticket
maturity 2 and ticket expiry 4294967295 (the maximal `uint32`), the Go
expression `uint32(TicketMaturity)+TicketExpiry` wraps around, so at
4 confirmations — strictly between maturity and maturity+expiry+1, where
the claim requires exactly one live-ticket query returning its result —
the code instead returns (false, no error) without any query. -/
theorem canTicketVote_overflow_cex :
    (2 : Int) < 4 ∧ (4 : Int) ≤ (2 : Int) + 4294967295 + 1 ∧
    canTicketVote 4 2 4294967295 (.ok true) = ((false, none), 0) ∧
    canTicketVote 4 2 4294967295 (.ok true) ≠ ((true, none), 1) := by
  refine ⟨by decide, by decide, by decide, by decide⟩

/-- Claim C1 (amended): provided maturity + expiry does not overflow a
`uint32` (maturity + expiry < 2^32), `canTicketVote` makes the claimed
three-way decision: above maturity+expiry+1 confirmations it returns
(false, no error) with no node query; at or below maturity it returns
(true, no error) with no node query; strictly in between it queries the
live-ticket set exactly once and, when the query succeeds, returns the
query's boolean result with no error. -/
theorem canTicketVote_threeway :
    ∀ (confirmations : Int) (M E : Nat) (q : Except GoError Bool),
      M < 65536 → E < 4294967296 → M + E < 4294967296 →
      (confirmations > (M : Int) + (E : Int) + 1 →
        canTicketVote confirmations M E q = ((false, none), 0)) ∧
      (confirmations ≤ (M : Int) →
        canTicketVote confirmations M E q = ((true, none), 0)) ∧
      ((M : Int) < confirmations → confirmations ≤ (M : Int) + (E : Int) + 1 →
        ∀ b, q = .ok b → canTicketVote confirmations M E q = ((b, none), 1)) := by
  intro c M E q hM hE hME
  have hmod : ((M + E) % 4294967296 : Nat) = M + E := Nat.mod_eq_of_lt hME
  simp only [canTicketVote, hmod, Nat.cast_add]
  refine ⟨fun h => ?_, fun h => ?_, fun h1 h2 b hb => ?_⟩
  · rw [if_pos h]
  · have hn : ¬ c > (M : Int) + (E : Int) + 1 := by omega
    rw [if_neg hn, if_pos h]
  · have hn1 : ¬ c > (M : Int) + (E : Int) + 1 := by omega
    have hn2 : ¬ c ≤ (M : Int) := by omega
    rw [if_neg hn1, if_neg hn2, hb]

theorem canTicketVote_threeway_witness :
    canTicketVote 10 2 3 (.ok true) = ((false, none), 0) ∧
    canTicketVote 2 2 3 (.ok true) = ((true, none), 0) ∧
    canTicketVote 4 2 3 (.ok false) = ((false, none), 1) :=
  ⟨(canTicketVote_threeway 10 2 3 (.ok true) (by decide) (by decide) (by decide)).1 (by decide),
   (canTicketVote_threeway 2 2 3 (.ok true) (by decide) (by decide) (by decide)).2.1 (by decide),
   (canTicketVote_threeway 4 2 3 (.ok false) (by decide) (by decide) (by decide)).2.2
     (by decide) (by decide) false rfl⟩

/-- Claim C4 (counterexample to the claim as stated): when the
live-ticket query errors, `canTicketVote` does not return that error
unchanged — it returns a new error wrapping it with the context
"dcrd.ExistsLiveTicket error". -/
theorem canTicketVote_wrap_cex :
    canTicketVote 3 2 10 (.error (.msg "dcrd connection lost")) =
      ((false, some (.wrap "dcrd.ExistsLiveTicket error" (.msg "dcrd connection lost"))), 1) ∧
    GoError.wrap "dcrd.ExistsLiveTicket error" (.msg "dcrd connection lost") ≠
      .msg "dcrd connection lost" := by
  refine ⟨by decide, by decide⟩

/-- Claim C4 (amended): whenever `canTicketVote` reaches the live-ticket
query (neither early branch applies) and the query errors, it returns
that error wrapped with context — the original error is recoverable by
unwrapping — and never suppresses it into an error-free false answer. -/
theorem canTicketVote_query_error_propagates :
    ∀ (confirmations : Int) (M E : Nat) (e : GoError),
      ¬ confirmations > (((M + E) % 4294967296 : Nat) : Int) + 1 →
      ¬ confirmations ≤ (M : Int) →
      canTicketVote confirmations M E (.error e) =
        ((false, some (.wrap "dcrd.ExistsLiveTicket error" e)), 1) ∧
      errUnwrap (.wrap "dcrd.ExistsLiveTicket error" e) = some e := by
  intro c M E e h1 h2
  refine ⟨?_, rfl⟩
  unfold canTicketVote
  rw [if_neg h1, if_neg h2]

theorem canTicketVote_query_error_propagates_witness :
    canTicketVote 3 2 10 (.error (.msg "boom")) =
      ((false, some (.wrap "dcrd.ExistsLiveTicket error" (.msg "boom"))), 1) ∧
    errUnwrap (.wrap "dcrd.ExistsLiveTicket error" (.msg "boom")) = some (.msg "boom") :=
  canTicketVote_query_error_propagates 3 2 10 (.msg "boom") (by decide) (by decide)

theorem findAgendaCheck_eq_none (voteVersion : Nat) (deps : List ConsensusDeployment)
    (p : String × String) (hnodup : (deps.map fun v => v.Vote.Id).Nodup)
    (h : pairInTables deps p) :
    findAgendaCheck p.1 p.2 voteVersion deps = none := by
  induction deps with
  | nil => rcases h with ⟨v, hv, _⟩; simp at hv
  | cons v rest ih =>
    rcases h with ⟨w, hw, hwid, hwch⟩
    by_cases hid : v.Vote.Id = p.1
    · have hvch : agendaHasChoice v p.2 := by
        rcases List.mem_cons.mp hw with hwv | hwrest
        · rw [← hwv]; exact hwch
        · exfalso
          have hmem : w.Vote.Id ∈ rest.map fun u => u.Vote.Id :=
            List.mem_map_of_mem _ hwrest
          rw [hwid, ← hid] at hmem
          exact (List.nodup_cons.mp hnodup).1 hmem
      rcases hvch with ⟨ch, hch, hchid⟩
      have hany : v.Vote.Choices.any (fun c => c.Id == p.2) = true :=
        List.any_eq_true.mpr ⟨ch, hch, by simp [hchid]⟩
      simp [findAgendaCheck, hid, hany]
    · have hwrest : w ∈ rest := by
        rcases List.mem_cons.mp hw with hwv | hwrest
        · rw [hwv] at hwid; exact absurd hwid hid
        · exact hwrest
      have hrec := ih (List.nodup_cons.mp hnodup).2 ⟨w, hwrest, hwid, hwch⟩
      simp [findAgendaCheck, hid, hrec]

theorem findAgendaCheck_choice_err (agenda choice : String) (voteVersion : Nat)
    (deps : List ConsensusDeployment)
    (hex : ∃ v ∈ deps, v.Vote.Id = agenda)
    (hall : ∀ v ∈ deps, v.Vote.Id = agenda → ¬ agendaHasChoice v choice) :
    findAgendaCheck agenda choice voteVersion deps =
      some (choiceNotFoundErr choice agenda) := by
  induction deps with
  | nil => simp at hex
  | cons v rest ih =>
    by_cases hid : v.Vote.Id = agenda
    · have hnoch := hall v (by simp) hid
      have hany : v.Vote.Choices.any (fun c => c.Id == choice) = false := by
        by_contra hc
        rw [Bool.not_eq_false, List.any_eq_true] at hc
        rcases hc with ⟨ch, hch, hcheq⟩
        exact hnoch ⟨ch, hch, by simpa using hcheq⟩
      simp [findAgendaCheck, hid, hany]
    · have hex' : ∃ w ∈ rest, w.Vote.Id = agenda := by
        rcases hex with ⟨w, hw, hwid⟩
        rcases List.mem_cons.mp hw with hwv | hwr
        · rw [hwv] at hwid; exact absurd hwid hid
        · exact ⟨w, hwr, hwid⟩
      have hrec := ih hex' fun w hw hwid => hall w (by simp [hw]) hwid
      simp [findAgendaCheck, hid, hrec]

theorem findAgendaCheck_agenda_err (agenda choice : String) (voteVersion : Nat)
    (deps : List ConsensusDeployment)
    (hall : ∀ v ∈ deps, v.Vote.Id ≠ agenda) :
    findAgendaCheck agenda choice voteVersion deps =
      some (agendaNotFoundErr agenda voteVersion) := by
  induction deps with
  | nil => rfl
  | cons v rest ih =>
    have hid := hall v (by simp)
    have hrec := ih fun w hw => hall w (by simp [hw])
    simp [findAgendaCheck, hid, hrec]

/-- Claim C5: under the data-model invariant that agenda identifiers of
a deployment list are unique, `validConsensusVoteChoices` succeeds when
every submitted (agenda, choice) pair appears in the agenda/choice
tables of the requested vote version; at the first submitted pair whose
agenda is present but whose choice is not among that agenda's choices it
fails with the error naming that choice and agenda; at the first
submitted pair whose agenda matches no deployment it fails with the
error naming that agenda and the vote version.  (The "first" pair is
relative to the iteration order of the submitted mapping.) -/
theorem validConsensusVoteChoices_spec :
    ∀ (params : Params) (voteVersion : Nat) (voteChoices : List (String × String)),
      ((deploymentsAt params voteVersion).map fun v => v.Vote.Id).Nodup →
      ((∀ p ∈ voteChoices, pairInTables (deploymentsAt params voteVersion) p) →
        validConsensusVoteChoices params voteVersion voteChoices = none) ∧
      (∀ pre post (agenda choice : String),
        voteChoices = pre ++ (agenda, choice) :: post →
        (∀ p ∈ pre, pairInTables (deploymentsAt params voteVersion) p) →
        ((∃ v ∈ deploymentsAt params voteVersion, v.Vote.Id = agenda) →
          (∀ v ∈ deploymentsAt params voteVersion, v.Vote.Id = agenda →
            ¬ agendaHasChoice v choice) →
          validConsensusVoteChoices params voteVersion voteChoices =
            some (choiceNotFoundErr choice agenda)) ∧
        ((∀ v ∈ deploymentsAt params voteVersion, v.Vote.Id ≠ agenda) →
          validConsensusVoteChoices params voteVersion voteChoices =
            some (agendaNotFoundErr agenda voteVersion))) := by
  intro params vv vcs hnodup
  constructor
  · intro hall
    unfold validConsensusVoteChoices
    rw [firstError_eq_none_iff]
    exact fun p hp => findAgendaCheck_eq_none vv _ p hnodup (hall p hp)
  · intro pre post agenda choice hsplit hpre
    constructor
    · intro hex hall
      unfold validConsensusVoteChoices
      rw [hsplit]
      exact firstError_append_cons _ pre post (agenda, choice) _
        (fun y hy => findAgendaCheck_eq_none vv _ y hnodup (hpre y hy))
        (findAgendaCheck_choice_err agenda choice vv _ hex hall)
    · intro hall
      unfold validConsensusVoteChoices
      rw [hsplit]
      exact firstError_append_cons _ pre post (agenda, choice) _
        (fun y hy => findAgendaCheck_eq_none vv _ y hnodup (hpre y hy))
        (findAgendaCheck_agenda_err agenda choice vv _ hall)

theorem validConsensusVoteChoices_spec_witness :
    validConsensusVoteChoices ⟨[(7, [⟨⟨"agendaX", [⟨"yes"⟩, ⟨"no"⟩]⟩⟩])], 8, 16⟩ 7
      [("agendaX", "yes")] = none ∧
    validConsensusVoteChoices ⟨[(7, [⟨⟨"agendaX", [⟨"yes"⟩, ⟨"no"⟩]⟩⟩])], 8, 16⟩ 7
      [("agendaX", "maybe")] = some (choiceNotFoundErr "maybe" "agendaX") ∧
    validConsensusVoteChoices ⟨[(7, [⟨⟨"agendaX", [⟨"yes"⟩, ⟨"no"⟩]⟩⟩])], 8, 16⟩ 7
      [("nope", "yes")] = some (agendaNotFoundErr "nope" 7) := by
  refine ⟨?_, ?_, ?_⟩
  · refine (validConsensusVoteChoices_spec _ 7 _ (by decide)).1 ?_
    intro p hp
    rw [List.mem_singleton] at hp
    subst hp
    exact ⟨⟨⟨"agendaX", [⟨"yes"⟩, ⟨"no"⟩]⟩⟩, by simp [deploymentsAt], rfl,
      ⟨"yes"⟩, by simp, rfl⟩
  · refine (((validConsensusVoteChoices_spec _ 7 _ (by decide)).2 [] [] "agendaX" "maybe"
      rfl (by simp)).1 ?_ ?_)
    · exact ⟨⟨⟨"agendaX", [⟨"yes"⟩, ⟨"no"⟩]⟩⟩, by simp [deploymentsAt], rfl⟩
    · intro v hv hid
      simp [deploymentsAt] at hv
      subst hv
      simp [agendaHasChoice]
  · refine (((validConsensusVoteChoices_spec _ 7 _ (by decide)).2 [] [] "nope" "yes"
      rfl (by simp)).2 ?_)
    intro v hv
    simp [deploymentsAt] at hv
    subst hv
    simp

theorem validPolicyOption_eq_none_iff (s : String) :
    validPolicyOption s = none ↔ s ∈ policyOptions := by
  by_cases h : s = "yes" ∨ s = "no" ∨ s = "abstain" ∨ s = "invalid" ∨ s = ""
  · simp [validPolicyOption, policyOptions, h]
  · simp [validPolicyOption, policyOptions, h]

theorem checkTreasuryEntry_eq_none_iff (p : String × String) :
    checkTreasuryEntry p = none ↔ treasuryEntryGood p := by
  unfold checkTreasuryEntry treasuryEntryGood
  cases hdec : hexDecodeString p.1 with
  | error e => simp [hdec]
  | ok bs =>
    by_cases hlen : bs.length = PubKeyBytesLenCompressed
    · simp [hdec, hlen, validPolicyOption_eq_none_iff]
    · simp [hdec, hlen]

/-- Claim C8: `validTreasuryPolicy` succeeds exactly when every key
hex-decodes to exactly 33 bytes and every value is one of the five
accepted policy strings; at the first offending entry (in iteration
order) it fails with the error naming the offending key (decode failure
or wrong decoded length) or the offending value. -/
theorem validTreasuryPolicy_spec :
    ∀ policy : List (String × String),
      (validTreasuryPolicy policy = none ↔ ∀ p ∈ policy, treasuryEntryGood p) ∧
      (∀ pre post (key choice : String),
        policy = pre ++ (key, choice) :: post →
        (∀ p ∈ pre, treasuryEntryGood p) →
        (∀ e, hexDecodeString key = .error e →
          validTreasuryPolicy policy =
            some (.wrap ("error decoding treasury key " ++ quoteStr key) e)) ∧
        (∀ bs, hexDecodeString key = .ok bs → bs.length ≠ PubKeyBytesLenCompressed →
          validTreasuryPolicy policy =
            some (.msg ("treasury key " ++ quoteStr key ++ " is not " ++
              toString PubKeyBytesLenCompressed ++ " bytes"))) ∧
        (∀ bs, hexDecodeString key = .ok bs → bs.length = PubKeyBytesLenCompressed →
          choice ∉ policyOptions →
          validTreasuryPolicy policy =
            some (.msg (quoteStr choice ++ " is not a valid policy option")))) := by
  intro policy
  constructor
  · unfold validTreasuryPolicy
    rw [firstError_eq_none_iff]
    constructor
    · intro h p hp
      exact (checkTreasuryEntry_eq_none_iff p).mp (h p hp)
    · intro h p hp
      exact (checkTreasuryEntry_eq_none_iff p).mpr (h p hp)
  · intro pre post key choice hsplit hpre
    have hpre' : ∀ y ∈ pre, checkTreasuryEntry y = none :=
      fun y hy => (checkTreasuryEntry_eq_none_iff y).mpr (hpre y hy)
    refine ⟨fun e hdec => ?_, fun bs hdec hlen => ?_, fun bs hdec hlen hval => ?_⟩
    · unfold validTreasuryPolicy
      rw [hsplit]
      exact firstError_append_cons _ pre post (key, choice) _ hpre'
        (by simp [checkTreasuryEntry, hdec])
    · unfold validTreasuryPolicy
      rw [hsplit]
      exact firstError_append_cons _ pre post (key, choice) _ hpre'
        (by simp [checkTreasuryEntry, hdec, hlen])
    · unfold validTreasuryPolicy
      rw [hsplit]
      refine firstError_append_cons _ pre post (key, choice) _ hpre' ?_
      have hopt : validPolicyOption choice =
          some (.msg (quoteStr choice ++ " is not a valid policy option")) := by
        cases hvp : validPolicyOption choice with
        | none => exact absurd ((validPolicyOption_eq_none_iff choice).mp hvp) hval
        | some e =>
          unfold validPolicyOption at hvp
          by_cases h : choice = "yes" ∨ choice = "no" ∨ choice = "abstain" ∨
              choice = "invalid" ∨ choice = ""
          · simp [h] at hvp
          · simp only [if_neg h] at hvp
            exact hvp.symm
      simp [checkTreasuryEntry, hdec, hlen, hopt]

theorem validTreasuryPolicy_spec_witness :
    validTreasuryPolicy
      [("020202020202020202020202020202020202020202020202020202020202020202", "abstain")] =
        none ∧
    validTreasuryPolicy [("zz", "yes")] =
      some (.wrap ("error decoding treasury key " ++ quoteStr "zz") (.hexInvalidByte 'z')) ∧
    validTreasuryPolicy [("0202", "yes")] =
      some (.msg ("treasury key " ++ quoteStr "0202" ++ " is not " ++
        toString PubKeyBytesLenCompressed ++ " bytes")) ∧
    validTreasuryPolicy
      [("020202020202020202020202020202020202020202020202020202020202020202", "Yes")] =
        some (.msg (quoteStr "Yes" ++ " is not a valid policy option")) := by
  refine ⟨?_, ?_, ?_, ?_⟩
  · refine (validTreasuryPolicy_spec _).1.mpr ?_
    intro p hp
    rw [List.mem_singleton] at hp
    subst hp
    exact ⟨⟨List.replicate 33 2, rfl, by decide⟩, by decide⟩
  · exact (((validTreasuryPolicy_spec _).2 [] [] "zz" "yes" rfl (by simp)).1
      (.hexInvalidByte 'z') rfl)
  · exact (((validTreasuryPolicy_spec _).2 [] [] "0202" "yes" rfl (by simp)).2.1
      [2, 2] rfl (by decide))
  · exact (((validTreasuryPolicy_spec _).2 [] []
      "020202020202020202020202020202020202020202020202020202020202020202" "Yes" rfl
      (by simp)).2.2 (List.replicate 33 2) rfl (by decide) (by decide))

theorem hexDecodeList_ok_of_hex : ∀ l : List Char,
    l.length % 2 = 0 → (∀ c ∈ l, (hexDigitVal c).isSome) →
    ∃ bs, hexDecodeList l = .ok bs
  | [] => fun _ _ => ⟨[], rfl⟩
  | [c] => fun heven _ => by simp at heven
  | a :: b :: rest => fun heven hall => by
    obtain ⟨x, hx⟩ := Option.isSome_iff_exists.mp (hall a (by simp))
    obtain ⟨y, hy⟩ := Option.isSome_iff_exists.mp (hall b (by simp))
    have heven' : rest.length % 2 = 0 := by
      simp only [List.length_cons] at heven
      omega
    obtain ⟨bs, hbs⟩ :=
      hexDecodeList_ok_of_hex rest heven' fun c hc => hall c (by simp [hc])
    exact ⟨(x * 16 + y) :: bs, by simp [hexDecodeList, hx, hy, hbs]⟩

theorem hexDecodeList_hex_of_ok : ∀ l : List Char,
    ∀ bs, hexDecodeList l = .ok bs → ∀ c ∈ l, (hexDigitVal c).isSome
  | [] => fun bs _ c hc => by simp at hc
  | [c] => fun bs hbs => by
    cases hc : hexDigitVal c <;> simp [hexDecodeList, hc] at hbs
  | a :: b :: rest => fun bs hbs c hc => by
    cases ha : hexDigitVal a with
    | none => simp [hexDecodeList, ha] at hbs
    | some x =>
      cases hb : hexDigitVal b with
      | none => simp [hexDecodeList, ha, hb] at hbs
      | some y =>
        cases hr : hexDecodeList rest with
        | error e => simp [hexDecodeList, ha, hb, hr] at hbs
        | ok bs2 =>
          rcases List.mem_cons.mp hc with hca | hc2
          · subst hca; simp [ha]
          · rcases List.mem_cons.mp hc2 with hcb | hcr
            · subst hcb; simp [hb]
            · exact hexDecodeList_hex_of_ok rest bs2 hr c hcr

theorem newHashFromStr_ok (h : String) (hlen : h.length = 64)
    (hhex : allHexDigits h = true) : newHashFromStr h = .ok () := by
  have hdlen : h.data.length = 64 := hlen
  obtain ⟨bs, hbs⟩ := hexDecodeList_ok_of_hex h.data (by simp [hdlen])
    (by simpa [allHexDigits, List.all_eq_true] using hhex)
  unfold newHashFromStr
  rw [if_neg (by simp [hlen, MaxHashStringSize]), if_pos (by simp [hlen]), hbs]

theorem newHashFromStr_hex_of_ok (h : String) (hlen : h.length = 64) :
    newHashFromStr h = .ok () → allHexDigits h = true := by
  intro hok
  unfold newHashFromStr at hok
  rw [if_neg (by simp [hlen, MaxHashStringSize]), if_pos (by simp [hlen])] at hok
  cases hr : hexDecodeList h.data with
  | error e => rw [hr] at hok; cases hok
  | ok bs =>
    rw [allHexDigits, List.all_eq_true]
    intro c hc
    exact hexDecodeList_hex_of_ok h.data bs hr c hc

/-- Claim C9: a hash string whose length differs from 64 is rejected by
`validateTicketHash`, and as a `validTSpendPolicy` key, with an error
reporting the actual and the expected length, whatever its characters; a
64-character string on which the hash parse fails is rejected with a
wrapped parse error; a 64-character string is accepted exactly when it
is all hexadecimal digits (in `validTSpendPolicy` the accepted key hands
over to the policy-value check). -/
theorem hash_length_validation_spec :
    ∀ hash : String,
      (hash.length ≠ 64 →
        validateTicketHash hash =
          some (.msg ("incorrect hash length: got " ++ toString hash.length ++
            ", expected " ++ toString MaxHashStringSize))) ∧
      (∀ e, newHashFromStr hash = .error e → hash.length = 64 →
        validateTicketHash hash = some (.wrap "invalid hash" e)) ∧
      (hash.length = 64 →
        (validateTicketHash hash = none ↔ allHexDigits hash = true)) ∧
      (∀ pre post (choice : String) policy,
        policy = pre ++ (hash, choice) :: post →
        (∀ p ∈ pre, checkTSpendEntry p = none) →
        (hash.length ≠ 64 →
          validTSpendPolicy policy =
            some (.msg ("wrong tspend hash length, expected " ++
              toString MaxHashStringSize ++ " got " ++ toString hash.length))) ∧
        (∀ e, newHashFromStr hash = .error e → hash.length = 64 →
          validTSpendPolicy policy =
            some (.wrap ("error decoding tspend hash " ++ quoteStr hash) e))) ∧
      (hash.length = 64 → allHexDigits hash = true →
        ∀ choice, checkTSpendEntry (hash, choice) = validPolicyOption choice) := by
  intro hash
  refine ⟨fun hlen => ?_, fun e he hlen => ?_, fun hlen => ⟨fun hv => ?_, fun hhex => ?_⟩,
    fun pre post choice policy hsplit hpre => ⟨fun hlen => ?_, fun e he hlen => ?_⟩,
    fun hlen hhex choice => ?_⟩
  · simp [validateTicketHash, MaxHashStringSize, hlen]
  · simp [validateTicketHash, MaxHashStringSize, hlen, he]
  · rw [validateTicketHash, if_neg (by simp [MaxHashStringSize, hlen])] at hv
    cases hn : newHashFromStr hash with
    | error e => rw [hn] at hv; cases hv
    | ok u => exact newHashFromStr_hex_of_ok hash hlen (by rw [hn])
  · simp [validateTicketHash, MaxHashStringSize, hlen, newHashFromStr_ok hash hlen hhex]
  · unfold validTSpendPolicy
    rw [hsplit]
    exact firstError_append_cons _ pre post (hash, choice) _ hpre
      (by simp [checkTSpendEntry, MaxHashStringSize, hlen])
  · unfold validTSpendPolicy
    rw [hsplit]
    exact firstError_append_cons _ pre post (hash, choice) _ hpre
      (by simp [checkTSpendEntry, MaxHashStringSize, hlen, he])
  · simp [checkTSpendEntry, MaxHashStringSize, hlen, newHashFromStr_ok hash hlen hhex]

theorem hash_length_validation_spec_witness :
    validateTicketHash "abc" =
      some (.msg ("incorrect hash length: got " ++ toString (3 : Nat) ++
        ", expected " ++ toString MaxHashStringSize)) ∧
    validateTicketHash "00000000000000000000000000000000000000000000000000000000000000za" =
      some (.wrap "invalid hash" (.hexInvalidByte 'z')) ∧
    validateTicketHash "0000000000000000000000000000000000000000000000000000000000000000" =
      none ∧
    validTSpendPolicy [("abc", "yes")] =
      some (.msg ("wrong tspend hash length, expected " ++ toString MaxHashStringSize ++
        " got " ++ toString (3 : Nat))) ∧
    checkTSpendEntry ("0000000000000000000000000000000000000000000000000000000000000000", "no") =
      validPolicyOption "no" := by
  refine ⟨?_, ?_, ?_, ?_, ?_⟩
  · exact (hash_length_validation_spec "abc").1 (by decide)
  · exact (hash_length_validation_spec _).2.1 (.hexInvalidByte 'z') rfl (by decide)
  · exact ((hash_length_validation_spec _).2.2.1 (by decide)).mpr (by decide)
  · exact ((hash_length_validation_spec "abc").2.2.2.1 [] [] "yes" _ rfl (by simp)).1
      (by decide)
  · exact (hash_length_validation_spec _).2.2.2.2 (by decide) (by decide) "no"

end Vspd
